/-
Verification of the simultaneous-fit scripts of the Semester2 repository
(src/fit_global.py and src/Models/Model7_pythonfiles/fit_global_model7.py).

The scripts build a RooFit simultaneous extended maximum-likelihood model:
shared shape parameters (Johnson SU, bifurcated Gaussian, Gaussian,
exponential background), per-category mixing fractions and yields, a
category index over the four meson/polarity samples, data binding via
tagged imports, and a flat-text result exporter.

This file embeds, directly from the Python sources:
  * the parameter declarations (name, initial value, bounds) and the
    object-identity structure of their creation order;
  * the `generate_list` helper and the data-loading loop of the model7
    script;
  * the binned/unbinned control flow of the main body;
  * the category labels defined on the index and the labels used by the
    dataset imports, for both scripts;
  * the result exporter (dictionary of name/value lines followed by
    `_error` lines) and a character-level renderer/parser for its output;
  * the per-category extended log-likelihood and the joint likelihood of
    the simultaneous model, over real-valued shape functions translated
    from the RooFit component definitions.
-/
import Mathlib

namespace Semester2

/-! ## Parameter declarations

Each `RooRealVar(name, title, init, lo, hi)` call in the Python scripts
creates a fresh parameter object.  `objId` records the creation order of
the objects (Python object identity), which is distinct from the Python
variable names: the model7 script binds the variable `mean` twice. -/

structure RooRealVarDecl where
  objId : Nat
  name  : String
  init  : ℚ
  lo    : ℚ
  hi    : ℚ
  deriving DecidableEq, Repr

/-- A rational `q` is admitted by a declaration iff it lies within the
declared bounds (RooFit bounds are inclusive). -/
def RooRealVarDecl.admits (d : RooRealVarDecl) (q : ℚ) : Prop :=
  d.lo ≤ q ∧ q ≤ d.hi

instance (d : RooRealVarDecl) (q : ℚ) : Decidable (d.admits q) := by
  unfold RooRealVarDecl.admits; infer_instance

namespace Model7
/-! Parameter declarations of
`src/Models/Model7_pythonfiles/fit_global_model7.py`, lines 212–246,
in source order.  Object ids follow creation order. -/

/-- Johnson SU location, line 212. -/
def Jmu_decl : RooRealVarDecl := ⟨0, "Jmu", 1865, 1863, 1867⟩
/-- Johnson SU width, line 213. -/
def Jlam_decl : RooRealVarDecl := ⟨1, "Jlam", 18.7, 10, 20⟩
/-- Johnson SU skewness, line 214. -/
def Jgam_decl : RooRealVarDecl := ⟨2, "Jgam", 0.45, 0, 10⟩
/-- Johnson SU kurtosis, line 215. -/
def Jdel_decl : RooRealVarDecl := ⟨3, "Jdel", 2.12, 0, 10⟩
/-- First object created under the Python variable `mean` (line 219);
the bifurcated Gaussian (line 222) is constructed from this object. -/
def mean_decl_v1 : RooRealVarDecl := ⟨4, "mean", 1865, 1850, 1880⟩
/-- Left width of the bifurcated Gaussian, line 220. -/
def sigmaL_decl : RooRealVarDecl := ⟨5, "sigmaL", 5.23, 0, 10⟩
/-- Right width of the bifurcated Gaussian, line 221. -/
def sigmaR_decl : RooRealVarDecl := ⟨6, "sigmaR", 6.8, 0, 10⟩
/-- Second object created under the Python variable `mean` (line 226);
it rebinds the variable, and the Gaussian (line 228) is constructed from
this object. -/
def mean_decl_v2 : RooRealVarDecl := ⟨7, "mean", 1865, 1850, 1880⟩
/-- Gaussian width, line 227. -/
def sigma_decl : RooRealVarDecl := ⟨8, "sigma", 6.57, 0, 20⟩
/-- Exponential background decay rate, line 231. -/
def a0_decl : RooRealVarDecl := ⟨9, "a0", -0.009, -1, 0⟩
/-- Mixing fraction of the bifurcated Gaussian in the D0 MagDown signal,
line 236. -/
def frac_D0_down_decl : RooRealVarDecl := ⟨10, "frac_D0_down", 0.18, 0.1, 1⟩
/-- Mixing fraction of the Gaussian in the D0 MagDown signal, line 237. -/
def frac_D0_down_2_decl : RooRealVarDecl := ⟨11, "frac_D0_down_2", 0.40, 0, 1⟩
/-- Mixing fraction of the bifurcated Gaussian in the D0 MagUp signal,
line 239. -/
def frac_D0_up_decl : RooRealVarDecl := ⟨12, "frac_D0_up", 0.21, 0.1, 1⟩
/-- Mixing fraction of the Gaussian in the D0 MagUp signal, line 240. -/
def frac_D0_up_2_decl : RooRealVarDecl := ⟨13, "frac_D0_up_2", 0.36, 0, 1⟩
/-- Mixing fraction of the bifurcated Gaussian in the D0bar MagDown
signal, line 242. -/
def frac_D0bar_down_decl : RooRealVarDecl := ⟨14, "frac_D0bar_down", 0.18, 0.1, 1⟩
/-- Mixing fraction of the Gaussian in the D0bar MagDown signal, line 243. -/
def frac_D0bar_down_2_decl : RooRealVarDecl := ⟨15, "frac_D0bar_down_2", 0.40, 0, 1⟩
/-- Mixing fraction of the bifurcated Gaussian in the D0bar MagUp signal,
line 245. -/
def frac_D0bar_up_decl : RooRealVarDecl := ⟨16, "frac_D0bar_up", 0.23, 0.1, 1⟩
/-- Mixing fraction of the Gaussian in the D0bar MagUp signal, line 246. -/
def frac_D0bar_up_2_decl : RooRealVarDecl := ⟨17, "frac_D0bar_up_2", 0.37, 0, 1⟩

/-- The mixing-fraction declarations of the model7 script, in source
order (lines 236–246). -/
def fracDecls : List RooRealVarDecl :=
  [frac_D0_down_decl, frac_D0_down_2_decl, frac_D0_up_decl, frac_D0_up_2_decl,
   frac_D0bar_down_decl, frac_D0bar_down_2_decl, frac_D0bar_up_decl, frac_D0bar_up_2_decl]

/-- The parameter object from which `RooBifurGauss("Bifurgauss", ..., D0_M,
mean, sigmaL, sigmaR)` (line 222) is constructed: the variable `mean` at
that point still holds the first object. -/
def bifurgauss_mean : RooRealVarDecl := mean_decl_v1

/-- The parameter object from which `RooGaussian("gauss", ..., D0_M, mean,
sigma)` (line 228) is constructed: the variable `mean` was rebound at
line 226. -/
def gaussian_mean : RooRealVarDecl := mean_decl_v2

/-- The parameter object appearing in the exported `variables` list
(line 329) under the entry `mean`: the current binding of the Python
variable, i.e. the second object. -/
def exported_mean : RooRealVarDecl := mean_decl_v2

end Model7

namespace FitGlobal
/-! Parameter declarations of `src/fit_global.py`, lines 141–170. -/

/-- Exponential background decay rate, line 160. -/
def a0_decl : RooRealVarDecl := ⟨9, "a0", -0.009, -1, 0⟩
/-- Mixing fraction of the Johnson component in the D0 signal, line 165. -/
def frac_D0_decl : RooRealVarDecl := ⟨10, "frac_D0", 0.16, 0, 1⟩
/-- Mixing fraction of the first bifurcated Gaussian in the D0 signal,
line 166. -/
def frac_D0_2_decl : RooRealVarDecl := ⟨11, "frac_D0_2", 0.4, 0, 1⟩
/-- Mixing fraction of the Johnson component in the D0bar signal, line 169. -/
def frac_D0bar_decl : RooRealVarDecl := ⟨12, "frac_D0bar", 0.3, 0, 1⟩
/-- Mixing fraction of the first bifurcated Gaussian in the D0bar signal,
line 170. -/
def frac_D0bar_2_decl : RooRealVarDecl := ⟨13, "frac_D0bar_2", 0.6, 0, 1⟩

/-- The mixing-fraction declarations of `src/fit_global.py`, in source
order (lines 165–170). -/
def fracDecls : List RooRealVarDecl :=
  [frac_D0_decl, frac_D0_2_decl, frac_D0bar_decl, frac_D0bar_2_decl]

end FitGlobal

/-! ## Composite signal structure

`RooAddPdf(name, title, RooArgList(p1, ..., pN), RooArgList(f1, ..., fM))`
builds an additive mixture; the script passes the component pdf list and
the coefficient list explicitly.  We record the lengths of those lists
for each signal model. -/

/-- Number of shape components and of mixing-fraction coefficients of each
per-category signal `RooAddPdf` in the model7 script (lines 288, 295, 302,
309): three components `[bifurgauss, gaussian, Johnson]` and two
coefficients per category. -/
def model7SignalShapes : List (String × Nat × Nat) :=
  [("signal_D0_up", 3, 2), ("signal_D0_down", 3, 2),
   ("signal_D0bar_up", 3, 2), ("signal_D0bar_down", 3, 2)]

/-- Number of shape components and of mixing-fraction coefficients of each
per-category signal `RooAddPdf` in `src/fit_global.py` (lines 196, 203):
three components `[Johnson, bifurgauss, bifurgauss2]` and two coefficients
per category. -/
def fitGlobalSignalShapes : List (String × Nat × Nat) :=
  [("signal_D0", 3, 2), ("signal_D0bar", 3, 2)]

/-! ## `generate_list` and the data-loading loop (model7, lines 130–182)

```
def generate_list(size_value_local):
    result_list = []
    current_value = 10
    while not result_list or result_list[-1] < size_value_local:
        result_list.append(current_value)
        current_value += 10
    return result_list
```
The loop body always runs at least once (the list starts empty); after an
iteration appending `current`, the guard compares `current < size` before
the next append of `current + 10`. -/

/-- The loop of `generate_list` after its first guard check: append
`current`, continue while the appended value is below the target. -/
def generate_list_loop (current size_value_local : Nat) : List Nat :=
  current ::
    (if current < size_value_local then
      generate_list_loop (current + 10) size_value_local
    else [])
termination_by size_value_local - current
decreasing_by omega

/-- `generate_list` from model7 lines 130–138: starts at 10 and steps by
10 until the last element reaches the argument. -/
def generate_list (size_value_local : Nat) : List Nat :=
  generate_list_loop 10 size_value_local

/-- The file added to the D0 MagUp chain in the `total` scheme (model7
line 165); the f-string uses `args.size`, not the loop variable. -/
def d0UpPath (input year : String) (size : Nat) : String :=
  input ++ "/20" ++ year ++ "/up/D0/D0_up_data_" ++ year ++ "_" ++
    toString size ++ "_clean.root"

/-- The file added to the D0 MagDown chain in the `total` scheme (model7
line 170). -/
def d0DownPath (input year : String) (size : Nat) : String :=
  input ++ "/20" ++ year ++ "/down/D0/D0_down_data_" ++ year ++ "_" ++
    toString size ++ "_clean.root"

/-- The file added to the D0bar MagUp chain in the `total` scheme (model7
line 175). -/
def d0barUpPath (input year : String) (size : Nat) : String :=
  input ++ "/20" ++ year ++ "/up/D0bar/D0bar_up_data_" ++ year ++ "_" ++
    toString size ++ "_clean.root"

/-- The file added to the D0bar MagDown chain in the `total` scheme
(model7 line 180). -/
def d0barDownPath (input year : String) (size : Nat) : String :=
  input ++ "/20" ++ year ++ "/down/D0bar/D0bar_down_data_" ++ year ++ "_" ++
    toString size ++ "_clean.root"

/-- The files accumulated in one category's `TChain` by the loop of
model7 lines 161–182 in the `total` scheme: one `Add` of that category's
(constant) path per element of `size_list`. -/
def chainFilesTotal (path : String) (size : Nat) : List String :=
  (generate_list size).map (fun _ => path)

/-! ## Binned/unbinned control flow (model7 lines 147–150 and 259–324)

The whole model construction, data binding and `fitTo` call sit inside
`if binned:`; afterwards the script unconditionally runs
`fitResult.Print()`.  When the flag selects an unbinned fit the guarded
block is skipped and `fitResult` is an unbound name. -/

/-- Outcome of the main body after argument parsing: either a fit result
is produced and printed, or the script raises a `NameError` at the first
use of an unbound variable. -/
inductive RunOutcome
  | fitDone
  | nameError (var : String)
  deriving DecidableEq, Repr

/-- `binned` flag computation, model7 lines 147–150 (identically
`src/fit_global.py` lines 93–96): true exactly for the `--binned_fit`
values `"y"` and `"Y"`. -/
def binnedFlag (binned_fit : String) : Bool :=
  binned_fit = "y" || binned_fit = "Y"

/-- Main-body tail of the model7 script: the guarded block (lines
259–321) assigns `fitResult` only when `binned` holds; line 324 then
evaluates `fitResult.Print()`. -/
def mainAfterParse (binned_fit : String) : RunOutcome :=
  if binnedFlag binned_fit then RunOutcome.fitDone
  else RunOutcome.nameError "fitResult"

/-! ## Category index and dataset imports -/

/-- Category labels defined on the model7 index `binned_sample`
(`defineType` calls, lines 287, 294, 301, 308), in call order. -/
def model7DefinedTypes : List String :=
  ["Binned_D0_up_sample", "Binned_D0_down_sample",
   "Binned_D0bar_up_sample", "Binned_D0bar_down_sample"]

/-- Labels used by the model7 dataset imports (line 315), in list order. -/
def model7ImportLabels : List String :=
  ["Binned_D0_up_sample", "Binned_D0bar_up_sample",
   "Binned_D0_down_sample", "Binned_D0bar_down_sample"]

/-- Category labels defined on the `src/fit_global.py` index
(`defineType` calls, lines 195 and 202). -/
def fitGlobalDefinedTypes : List String :=
  ["Binned_D0_sample", "Binned_D0bar_sample"]

/-- Labels used by the `src/fit_global.py` dataset imports (line 209):
the second import is labelled `"Binned_D0bar"`, not
`"Binned_D0bar_sample"`. -/
def fitGlobalImportLabels : List String :=
  ["Binned_D0_sample", "Binned_D0bar"]

/-- Modelled from the spec: the data-binding step itself (inside the
`RooDataHist` constructor taking `Index`/`Import` arguments, which is
RooFit library code, not part of this repository).  Per §4.4 of the spec
the binding fails when the number of registered categories in the index
does not match the number of bound datasets; otherwise it succeeds. -/
def bindData (definedTypes importLabels : List String) : Bool :=
  definedTypes.length = importLabels.length

/-! ## Result exporter (model7 lines 329–343)

```
variables = [a0, frac_D0_down, ..., mean, sigma]
parameters_dict = {name: value for name, value in zip(names, values)}
with open(f"{args.path}/fit_parameters.txt", 'w') as file:
    for key, value in parameters_dict.items():
        file.write(f"{key}: {value}\n")
    for name, error in zip(names, errors):
        if name.startswith("Nsig_"):
            file.write(f"{name}_error: {error}\n")
```
All 25 names are pairwise distinct, so the dictionary keeps every entry
in insertion order.  Values are abstracted as the already-formatted
decimal strings Python interpolates into the f-string. -/

/-- The names of the exported `variables` list (line 329), in list
order. -/
def model7VariableNames : List String :=
  ["a0", "frac_D0_down", "frac_D0_down_2", "frac_D0_up", "frac_D0_up_2",
   "frac_D0bar_down", "frac_D0bar_down_2", "frac_D0bar_up", "frac_D0bar_up_2",
   "Nsig_D0_down", "Nbkg_D0_down", "Nsig_D0_up", "Nbkg_D0_up",
   "Nsig_D0bar_down", "Nbkg_D0bar_down", "Nsig_D0bar_up", "Nbkg_D0bar_up",
   "sigmaL", "sigmaR", "Jmu", "Jlam", "Jgam", "Jdel", "mean", "sigma"]

/-- Python's `name.startswith(pre)`: character-level prefix test. -/
def pyStartsWith (pre s : String) : Bool :=
  pre.toList.isPrefixOf s.toList

/-- The key/value pairs written to `fit_parameters.txt`, in writing
order: one pair per exported variable, then one `name_error` pair for
each name starting with `"Nsig_"`.  `val` and `err` give the formatted
value and error strings of each variable. -/
def exportPairs (val err : String → String) : List (String × String) :=
  (model7VariableNames.map fun n => (n, val n)) ++
    ((model7VariableNames.filter fun n => pyStartsWith "Nsig_" n).map
      fun n => (n ++ "_error", err n))

/-! ## Character-level rendering and parsing of the output file

Each pair is written as `key: value` followed by a newline; re-parsing
splits the text into lines and splits each line at the first
occurrence of `": "`. -/

/-- One output line: `key`, the separator `": "`, `value`, newline. -/
def renderPair (p : List Char × List Char) : List Char :=
  p.1 ++ ':' :: ' ' :: p.2 ++ ['\n']

/-- The full output file: the concatenation of the rendered lines. -/
def renderFile (pairs : List (List Char × List Char)) : List Char :=
  (pairs.map renderPair).foldr (· ++ ·) []

/-- Split a line at the first occurrence of the two-character separator
`": "`; `none` when the line has no separator. -/
def findSep : List Char → Option (List Char × List Char)
  | [] => none
  | [_] => none
  | c :: d :: rest =>
    if c = ':' ∧ d = ' ' then some ([], d :: rest |>.tail)
    else
      match findSep (d :: rest) with
      | some (a, b) => some (c :: a, b)
      | none => none

/-- Split a text into lines at every newline character (the semantics of
splitting on `'\n'`; a trailing newline yields a final empty piece). -/
def splitLines : List Char → List (List Char)
  | [] => [[]]
  | c :: rest =>
    if c = '\n' then [] :: splitLines rest
    else
      match splitLines rest with
      | [] => [[c]]
      | l :: ls => (c :: l) :: ls

/-- Re-parse the output text: split into lines, split each line at the
first `": "`, drop lines with no separator. -/
def parseFile (file : List Char) : List (List Char × List Char) :=
  (splitLines file).filterMap findSep

theorem findSep_render (k v : List Char) (hk : ':' ∉ k) :
    findSep (k ++ ':' :: ' ' :: v) = some (k, v) := by
  induction k with
  | nil => simp [findSep]
  | cons c k ih =>
    have hc : c ≠ ':' := fun h => hk (by simp [h])
    have hrec := ih fun h => hk (List.mem_cons_of_mem _ h)
    cases k with
    | nil =>
      simp only [List.nil_append] at hrec
      simp [findSep, hc, hrec]
    | cons d k' =>
      simp only [List.cons_append, findSep, hc, false_and, if_false]
      rw [List.cons_append] at hrec
      simp [hrec]

theorem splitLines_append (l rest : List Char) (hl : '\n' ∉ l) :
    splitLines (l ++ '\n' :: rest) = l :: splitLines rest := by
  induction l with
  | nil => simp [splitLines]
  | cons c l ih =>
    have hc : c ≠ '\n' := fun h => hl (by simp [h])
    have hrec := ih fun h => hl (List.mem_cons_of_mem _ h)
    simp only [List.cons_append, splitLines, hc, if_false, List.append_eq, hrec]

/-- Writing any list of key/value pairs whose keys contain no colon and
whose keys and values contain no newline, then re-parsing the text,
recovers exactly the written pairs. -/
theorem parseFile_renderFile (pairs : List (List Char × List Char))
    (h : ∀ p ∈ pairs, ':' ∉ p.1 ∧ '\n' ∉ p.1 ∧ '\n' ∉ p.2) :
    parseFile (renderFile pairs) = pairs := by
  induction pairs with
  | nil => simp [parseFile, renderFile, splitLines, findSep]
  | cons p ps ih =>
    obtain ⟨hk, hkn, hvn⟩ := h p (List.mem_cons_self _ _)
    have hrest := ih fun q hq => h q (List.mem_cons_of_mem _ hq)
    have hline : '\n' ∉ p.1 ++ ':' :: ' ' :: p.2 := by
      intro hmem
      rcases List.mem_append.mp hmem with h1 | h2
      · exact hkn h1
      · rcases h2 with _ | ⟨_, h3⟩
        · rcases h3 with _ | ⟨_, h4⟩
          · exact hvn h4
    have hfile : renderFile (p :: ps) =
        (p.1 ++ ':' :: ' ' :: p.2) ++ '\n' :: renderFile ps := by
      simp [renderFile, renderPair]
    rw [parseFile, hfile, splitLines_append _ _ hline]
    simp only [List.filterMap_cons, findSep_render p.1 p.2 hk]
    rw [← parseFile, hrest]

/-! ## The simultaneous likelihood model (model7, lines 209–320)

The four meson/polarity categories share every shape parameter; the
mixing fractions and the two yields are category-specific.  The shape
`evaluate` functions are translated from the RooFit component classes
used by the script (`RooJohnson`, `RooBifurGauss`, `RooGaussian`,
`RooExponential`); each component entering a `RooAddPdf` is normalized
over the observable window `[1815, 1910]` declared at line 209. -/

namespace Model7

/-- The four samples of the simultaneous fit. -/
inductive Cat
  | D0_up | D0_down | D0bar_up | D0bar_down
  deriving DecidableEq, Repr

/-- The parameters shared by all four categories: the Johnson SU shape
(line 216), the bifurcated Gaussian (line 222, whose location is the
first `mean` object), the Gaussian (line 228, whose location is the
second `mean` object), and the exponential decay rate (line 231). -/
structure SharedParams where
  Jmu : ℝ
  Jlam : ℝ
  Jgam : ℝ
  Jdel : ℝ
  mean_bifur : ℝ
  sigmaL : ℝ
  sigmaR : ℝ
  mean_gauss : ℝ
  sigma : ℝ
  a0 : ℝ

/-- A full parameter vector: the shared shape parameters together with,
per category, the two mixing fractions (lines 236–246) and the signal
and background yields (lines 249–256). -/
structure Params where
  shared : SharedParams
  frac : Cat → ℝ
  frac2 : Cat → ℝ
  Nsig : Cat → ℝ
  Nbkg : Cat → ℝ

/-- Lower edge of the observable window (line 209 / line 144). -/
def massLo : ℝ := 1815
/-- Upper edge of the observable window (line 209 / line 145). -/
def massHi : ℝ := 1910

/-- `RooJohnson` evaluate: the Johnson SU density (the script builds it
without a mass threshold, so no truncation applies). -/
noncomputable def johnsonRaw (mu lam gam del x : ℝ) : ℝ :=
  del / (lam * Real.sqrt (2 * Real.pi)) *
    Real.exp (-(1 / 2) * (gam + del * Real.arsinh ((x - mu) / lam)) ^ 2) /
    Real.sqrt (1 + ((x - mu) / lam) ^ 2)

/-- `RooBifurGauss` evaluate: Gaussian tails with separate widths left
and right of the mean, with the library's guard against vanishing
widths. -/
noncomputable def bifurGaussRaw (m sL sR x : ℝ) : ℝ :=
  Real.exp
    ((if x - m < 0 then
        (if 1 / 10 ^ 30 < |sL| then -(1 / 2) / (sL * sL) else 0)
      else
        (if 1 / 10 ^ 30 < |sR| then -(1 / 2) / (sR * sR) else 0)) *
      (x - m) * (x - m))

/-- `RooGaussian` evaluate. -/
noncomputable def gaussRaw (m s x : ℝ) : ℝ :=
  Real.exp (-(1 / 2) * (x - m) ^ 2 / (s * s))

/-- `RooExponential` evaluate. -/
noncomputable def expoRaw (a x : ℝ) : ℝ :=
  Real.exp (a * x)

/-- Normalization of the Johnson component over the observable window. -/
noncomputable def johnsonNorm (mu lam gam del : ℝ) : ℝ :=
  ∫ x in massLo..massHi, johnsonRaw mu lam gam del x

/-- Normalization of the bifurcated Gaussian over the observable window. -/
noncomputable def bifurGaussNorm (m sL sR : ℝ) : ℝ :=
  ∫ x in massLo..massHi, bifurGaussRaw m sL sR x

/-- Normalization of the Gaussian over the observable window. -/
noncomputable def gaussNorm (m s : ℝ) : ℝ :=
  ∫ x in massLo..massHi, gaussRaw m s x

/-- Normalization of the exponential over the observable window:
`RooExponential` integrates analytically,
`(exp(a·hi) − exp(a·lo))/a` with the degenerate flat case at `a = 0`. -/
noncomputable def expoNorm (a : ℝ) : ℝ :=
  if a = 0 then massHi - massLo
  else (Real.exp (a * massHi) - Real.exp (a * massLo)) / a

/-- The per-category signal mixture (lines 288, 295, 302, 309):
`RooAddPdf` over the normalized components `[bifurgauss, gaussian,
Johnson]` with the two category fractions as coefficients; the third
coefficient is implied by normalization-to-one. -/
noncomputable def signalPdf (θ : Params) (c : Cat) (x : ℝ) : ℝ :=
  θ.frac c * (bifurGaussRaw θ.shared.mean_bifur θ.shared.sigmaL θ.shared.sigmaR x /
      bifurGaussNorm θ.shared.mean_bifur θ.shared.sigmaL θ.shared.sigmaR) +
  θ.frac2 c * (gaussRaw θ.shared.mean_gauss θ.shared.sigma x /
      gaussNorm θ.shared.mean_gauss θ.shared.sigma) +
  (1 - θ.frac c - θ.frac2 c) *
    (johnsonRaw θ.shared.Jmu θ.shared.Jlam θ.shared.Jgam θ.shared.Jdel x /
      johnsonNorm θ.shared.Jmu θ.shared.Jlam θ.shared.Jgam θ.shared.Jdel)

/-- The shared exponential background (lines 231–232), normalized. -/
noncomputable def backgroundPdf (θ : Params) (x : ℝ) : ℝ :=
  expoRaw θ.shared.a0 x / expoNorm θ.shared.a0

/-- The per-category extended model (lines 290, 297, 304, 311):
`RooAddPdf([signal, background], [Nsig, Nbkg])`, whose density is the
yield-weighted mixture. -/
noncomputable def modelPdf (θ : Params) (c : Cat) (x : ℝ) : ℝ :=
  (θ.Nsig c * signalPdf θ c x + θ.Nbkg c * backgroundPdf θ x) /
    (θ.Nsig c + θ.Nbkg c)

/-- Expected event count of a category's extended model: the sum of its
two yields. -/
noncomputable def expectedEvents (θ : Params) (c : Cat) : ℝ :=
  θ.Nsig c + θ.Nbkg c

/-- A dataset over the observable: a weighted sample, one
(mass, weight) entry per event or filled bin. -/
abbrev Dataset := List (ℝ × ℝ)

/-- The extended log-likelihood of one category against a dataset
(up to the parameter-free `log n!` term):
`Σ w·log(ν·pdf(x)) − ν` with `ν` the expected event count. -/
noncomputable def extLL (θ : Params) (c : Cat) (d : Dataset) : ℝ :=
  (d.map fun e => e.2 * Real.log (expectedEvents θ c * modelPdf θ c e.1)).sum -
    expectedEvents θ c

/-- The categories registered on the index, in `defineType` order
(lines 287, 294, 301, 308). -/
def registeredCats : List Cat :=
  [Cat.D0_up, Cat.D0_down, Cat.D0bar_up, Cat.D0bar_down]

/-- The order in which the dataset imports tag their events when the
simultaneous dataset is assembled (line 315). -/
def importOrder : List Cat :=
  [Cat.D0_up, Cat.D0bar_up, Cat.D0_down, Cat.D0bar_down]

/-- The simultaneous dataset (line 316): the per-category samples
concatenated in import order, each event tagged with its category. -/
def mergeData (d : Cat → Dataset) : List (Cat × ℝ × ℝ) :=
  importOrder.flatMap fun c => (d c).map fun e => (c, e)

/-- The joint extended log-likelihood of the simultaneous model: a
single pass over the tagged combined dataset, dispatching each event to
the model registered for its tag, minus the total expected count over
all registered categories. -/
noncomputable def jointLL (θ : Params) (combined : List (Cat × ℝ × ℝ)) : ℝ :=
  (combined.map fun e => e.2.2 * Real.log (expectedEvents θ e.1 * modelPdf θ e.1 e.2.1)).sum -
    (registeredCats.map fun c => expectedEvents θ c).sum

/-- Two parameter vectors agree except possibly in the two yields of
category `c0`: equal shared parameters, equal fractions, and equal
yields for every other category. -/
def agreeExceptYields (c0 : Cat) (θ θ' : Params) : Prop :=
  θ'.shared = θ.shared ∧ θ'.frac = θ.frac ∧ θ'.frac2 = θ.frac2 ∧
    ∀ c, c ≠ c0 → θ'.Nsig c = θ.Nsig c ∧ θ'.Nbkg c = θ.Nbkg c

/-- Two parameter vectors agree except possibly in the shared
exponential decay rate `a0`. -/
def agreeExceptA0 (θ θ' : Params) : Prop :=
  θ'.shared.Jmu = θ.shared.Jmu ∧ θ'.shared.Jlam = θ.shared.Jlam ∧
  θ'.shared.Jgam = θ.shared.Jgam ∧ θ'.shared.Jdel = θ.shared.Jdel ∧
  θ'.shared.mean_bifur = θ.shared.mean_bifur ∧
  θ'.shared.sigmaL = θ.shared.sigmaL ∧ θ'.shared.sigmaR = θ.shared.sigmaR ∧
  θ'.shared.mean_gauss = θ.shared.mean_gauss ∧ θ'.shared.sigma = θ.shared.sigma ∧
  θ'.frac = θ.frac ∧ θ'.frac2 = θ.frac2 ∧ θ'.Nsig = θ.Nsig ∧ θ'.Nbkg = θ.Nbkg

/-- Shared-parameter vector holding the declared initial values of the
shape parameters, with the exponential decay rate `a` left free. -/
noncomputable def sharedAt (a : ℝ) : SharedParams :=
  ⟨1865, 18.7, 0.45, 2.12, 1865, 5.23, 6.8, 1865, 6.57, a⟩

/-- A parameter vector that puts the whole expected yield of every
category into the background: one background event, no signal. -/
noncomputable def bkgParams (a : ℝ) : Params :=
  ⟨sharedAt a, fun _ => 0.5, fun _ => 0.5, fun _ => 0, fun _ => 1⟩

/-- One unit-weight event at the lower edge of the observable window in
every category. -/
noncomputable def pointData : Cat → Dataset := fun _ => [(1815, 1)]

theorem extLL_bkgParams (a : ℝ) (c : Cat) :
    extLL (bkgParams a) c (pointData c) =
      Real.log (Real.exp (a * 1815) / expoNorm a) - 1 := by
  simp [extLL, expectedEvents, modelPdf, signalPdf, backgroundPdf,
    bkgParams, pointData, expoRaw, sharedAt]

theorem expoNorm_neg_one :
    expoNorm (-1) = Real.exp (-1815) - Real.exp (-1910) := by
  rw [expoNorm, if_neg (by norm_num), massLo, massHi]
  rw [div_eq_iff (by norm_num : (-1 : ℝ) ≠ 0)]
  norm_num

theorem expoNorm_neg_half :
    expoNorm (-(1 / 2)) = 2 * (Real.exp (-(1815 / 2)) - Real.exp (-955)) := by
  rw [expoNorm, if_neg (by norm_num), massLo, massHi]
  rw [div_eq_iff (by norm_num : (-(1 / 2) : ℝ) ≠ 0)]
  norm_num [show (-(1 / 2) : ℝ) * 1910 = -955 by norm_num,
    show (-(1 / 2) : ℝ) * 1815 = -(1815 / 2) by norm_num]
  ring

/-- The normalized exponential background evaluated at the lower window
edge is strictly above 1 at decay rate −1. -/
theorem bkgVal_neg_one_gt :
    1 < Real.exp ((-1 : ℝ) * 1815) / expoNorm (-1) := by
  rw [expoNorm_neg_one, show ((-1 : ℝ) * 1815) = -1815 by norm_num]
  have h0 : Real.exp (-1910) < Real.exp (-1815) := Real.exp_lt_exp.mpr (by norm_num)
  have hd : 0 < Real.exp (-1815) - Real.exp (-1910) := sub_pos.mpr h0
  rw [one_lt_div hd]
  have := Real.exp_pos (-1910 : ℝ)
  linarith

/-- The normalized exponential background evaluated at the lower window
edge is strictly below 1 at decay rate −1/2. -/
theorem bkgVal_neg_half_lt :
    Real.exp ((-(1 / 2) : ℝ) * 1815) / expoNorm (-(1 / 2)) < 1 := by
  rw [expoNorm_neg_half, show ((-(1 / 2) : ℝ) * 1815) = -(1815 / 2) by norm_num]
  have h2 : (2 : ℝ) < Real.exp (95 / 2) := by
    have := Real.add_one_le_exp (95 / 2 : ℝ)
    linarith
  have hkey : 2 * Real.exp (-955) < Real.exp (-(1815 / 2)) := by
    have hmul := (mul_lt_mul_of_pos_left h2 (Real.exp_pos (-955 : ℝ)))
    calc 2 * Real.exp (-955) = Real.exp (-955) * 2 := by ring
      _ < Real.exp (-955) * Real.exp (95 / 2) := hmul
      _ = Real.exp (-955 + 95 / 2) := (Real.exp_add _ _).symm
      _ = Real.exp (-(1815 / 2)) := by norm_num
  have hd : 0 < 2 * (Real.exp (-(1815 / 2)) - Real.exp (-955)) := by
    have : Real.exp (-955) < Real.exp (-(1815 / 2)) := Real.exp_lt_exp.mpr (by norm_num)
    linarith
  rw [div_lt_one hd]
  linarith

/-- The normalized background value at the lower window edge is positive
for decay rate −1/2. -/
theorem bkgVal_neg_half_pos :
    0 < Real.exp ((-(1 / 2) : ℝ) * 1815) / expoNorm (-(1 / 2)) := by
  rw [expoNorm_neg_half]
  have hd : 0 < 2 * (Real.exp (-(1815 / 2)) - Real.exp (-955)) := by
    have : Real.exp (-955) < Real.exp (-(1815 / 2)) := Real.exp_lt_exp.mpr (by norm_num)
    linarith
  exact div_pos (Real.exp_pos _) hd

end Model7

/-!
# Theorems
-/

/-- **C1.** For every parameter vector and every binding of a dataset to
each of the four registered categories, the joint log-likelihood of the
simultaneous model — computed in one pass over the tagged combined
dataset, minus the total expected count of the registered categories —
equals the sum, over all registered categories, of that category's
extended log-likelihood evaluated against the dataset bound to its label
at that same parameter vector. -/
theorem C1_joint_likelihood_decomposes
    (θ : Model7.Params) (d : Model7.Cat → Model7.Dataset) :
    Model7.jointLL θ (Model7.mergeData d) =
      (Model7.registeredCats.map fun c => Model7.extLL θ c (d c)).sum := by
  simp [Model7.jointLL, Model7.mergeData, Model7.extLL,
    Model7.registeredCats, Model7.importOrder, List.map_map, Function.comp_def]
  ring

/-- **C2.** Yield parameters are category-local and shared shape
parameters couple every category: (a) for every two parameter vectors
that differ only in the yield parameters of one category, the extended
likelihood contribution of every other category on any dataset is
unchanged; (b) there are datasets and two parameter vectors differing
only in the shared decay-rate parameter `a0` (a non-degenerate
configuration) for which the likelihood contribution of every one of
the four categories — all of which reference `a0` through the shared
exponential background — changes. -/
theorem C2_yield_locality_and_shared_coupling :
    (∀ (c0 : Model7.Cat) (θ θ' : Model7.Params),
        Model7.agreeExceptYields c0 θ θ' →
        ∀ c, c ≠ c0 → ∀ d : Model7.Dataset,
          Model7.extLL θ' c d = Model7.extLL θ c d) ∧
    (∃ (d : Model7.Cat → Model7.Dataset) (θ θ' : Model7.Params),
        Model7.agreeExceptA0 θ θ' ∧ θ.shared.a0 ≠ θ'.shared.a0 ∧
        ∀ c, Model7.extLL θ c (d c) ≠ Model7.extLL θ' c (d c)) := by
  constructor
  · rintro c0 θ θ' ⟨hs, hf, hf2, hy⟩ c hc d
    obtain ⟨hns, hnb⟩ := hy c hc
    simp only [Model7.extLL, Model7.expectedEvents, Model7.modelPdf,
      Model7.signalPdf, Model7.backgroundPdf, hs, hf, hf2, hns, hnb]
  · refine ⟨Model7.pointData, Model7.bkgParams (-1), Model7.bkgParams (-(1 / 2)),
      ⟨rfl, rfl, rfl, rfl, rfl, rfl, rfl, rfl, rfl, rfl, rfl, rfl, rfl⟩,
      by norm_num [Model7.bkgParams, Model7.sharedAt], fun c => ?_⟩
    rw [Model7.extLL_bkgParams, Model7.extLL_bkgParams]
    intro h
    have hlog : Real.log (Real.exp ((-1 : ℝ) * 1815) / Model7.expoNorm (-1)) =
        Real.log (Real.exp ((-(1 / 2) : ℝ) * 1815) / Model7.expoNorm (-(1 / 2))) := by
      linarith
    have hlt : Real.log (Real.exp ((-(1 / 2) : ℝ) * 1815) / Model7.expoNorm (-(1 / 2))) <
        Real.log (Real.exp ((-1 : ℝ) * 1815) / Model7.expoNorm (-1)) :=
      Real.log_lt_log Model7.bkgVal_neg_half_pos
        (lt_trans Model7.bkgVal_neg_half_lt Model7.bkgVal_neg_one_gt)
    exact absurd hlog (ne_of_gt hlt)

/-- Parameter vector used to witness the yield-locality theorem. -/
noncomputable def paramsYieldW : Model7.Params :=
  ⟨Model7.sharedAt (-0.009), fun _ => 0.5, fun _ => 0.5, fun _ => 100, fun _ => 10⟩

/-- `paramsYieldW` with only the D0 MagUp signal yield changed. -/
noncomputable def paramsYieldW' : Model7.Params :=
  { paramsYieldW with
    Nsig := fun c => match c with | Model7.Cat.D0_up => 50 | _ => 100 }

/-- Witness for C2: at two concrete parameter vectors differing only in
`Nsig_D0_up`, the D0 MagDown contribution on a concrete dataset is
unchanged. -/
theorem C2_yield_locality_witness :
    Model7.agreeExceptYields Model7.Cat.D0_up paramsYieldW paramsYieldW' ∧
    Model7.extLL paramsYieldW' Model7.Cat.D0_down [(1850, 1)] =
      Model7.extLL paramsYieldW Model7.Cat.D0_down [(1850, 1)] := by
  have hag : Model7.agreeExceptYields Model7.Cat.D0_up paramsYieldW paramsYieldW' := by
    refine ⟨rfl, rfl, rfl, fun c hc => ⟨?_, rfl⟩⟩
    cases c with
    | D0_up => exact absurd rfl hc
    | D0_down => rfl
    | D0bar_up => rfl
    | D0bar_down => rfl
  exact ⟨hag, C2_yield_locality_and_shared_coupling.1 Model7.Cat.D0_up
    paramsYieldW paramsYieldW' hag Model7.Cat.D0_down (by decide) _⟩

/-- **C3.** Evaluating the model7 main body at the unbinned-fit inputs
`--binned_fit n` and `--binned_fit N`: the entire model construction,
data binding and fit sit inside `if binned:`, so no fit is performed and
the script fails with a `NameError` on `fitResult` (line 324) instead of
producing a fit result; the binned inputs `y`/`Y` do reach the fit. -/
theorem C3_unbinned_mode_crashes :
    mainAfterParse "n" = RunOutcome.nameError "fitResult" ∧
    mainAfterParse "N" = RunOutcome.nameError "fitResult" ∧
    mainAfterParse "y" = RunOutcome.fitDone ∧
    mainAfterParse "Y" = RunOutcome.fitDone := by decide

/-- **C4, counterexample.** The exporter's output, at the concrete
all-zero fit result, contains no `Nbkg_D0_down_error` line (background
yield errors are never written, only `Nsig_*` ones), and its first line
is the `a0` entry, not the first declared parameter `Jmu` — so the
claimed line set and order are both wrong. -/
theorem C4_export_counterexample :
    "Nbkg_D0_down_error" ∉
      (exportPairs (fun _ => "0.0") (fun _ => "0.0")).map Prod.fst ∧
    ((exportPairs (fun _ => "0.0") (fun _ => "0.0")).map Prod.fst).head? =
      some "a0" ∧
    "a0" ≠ "Jmu" ∧ Model7.Jmu_decl.objId = 0 := by decide

/-- **C4, amended.** For every formatted value and error assignment, the
exporter writes exactly one `name: value` pair per exported variable in
the order of the `variables` list (`a0`, the eight fractions, the eight
yields, `sigmaL`, `sigmaR`, the four Johnson parameters, `mean`,
`sigma`), followed by `name_error` pairs for the four signal yields
only, and nothing else. -/
theorem C4_export_lines (val err : String → String) :
    exportPairs val err =
      [("a0", val "a0"),
       ("frac_D0_down", val "frac_D0_down"),
       ("frac_D0_down_2", val "frac_D0_down_2"),
       ("frac_D0_up", val "frac_D0_up"),
       ("frac_D0_up_2", val "frac_D0_up_2"),
       ("frac_D0bar_down", val "frac_D0bar_down"),
       ("frac_D0bar_down_2", val "frac_D0bar_down_2"),
       ("frac_D0bar_up", val "frac_D0bar_up"),
       ("frac_D0bar_up_2", val "frac_D0bar_up_2"),
       ("Nsig_D0_down", val "Nsig_D0_down"),
       ("Nbkg_D0_down", val "Nbkg_D0_down"),
       ("Nsig_D0_up", val "Nsig_D0_up"),
       ("Nbkg_D0_up", val "Nbkg_D0_up"),
       ("Nsig_D0bar_down", val "Nsig_D0bar_down"),
       ("Nbkg_D0bar_down", val "Nbkg_D0bar_down"),
       ("Nsig_D0bar_up", val "Nsig_D0bar_up"),
       ("Nbkg_D0bar_up", val "Nbkg_D0bar_up"),
       ("sigmaL", val "sigmaL"),
       ("sigmaR", val "sigmaR"),
       ("Jmu", val "Jmu"),
       ("Jlam", val "Jlam"),
       ("Jgam", val "Jgam"),
       ("Jdel", val "Jdel"),
       ("mean", val "mean"),
       ("sigma", val "sigma"),
       ("Nsig_D0_down_error", err "Nsig_D0_down"),
       ("Nsig_D0_up_error", err "Nsig_D0_up"),
       ("Nsig_D0bar_down_error", err "Nsig_D0bar_down"),
       ("Nsig_D0bar_up_error", err "Nsig_D0bar_up")] := rfl

/-- **C5.** The count check of the binding step (modelled from the spec)
passes for both scripts — four datasets on four labels in model7, two on
two in `fit_global.py` — and every model7 import label is a defined
category type; but in `fit_global.py` the second dataset import uses the
label `"Binned_D0bar"`, which is not a defined category type (the
defined types are `"Binned_D0_sample"` and `"Binned_D0bar_sample"`), so
the claim that every dataset import uses a defined category type fails
on the code. -/
theorem C5_import_label_mismatch :
    bindData model7DefinedTypes model7ImportLabels = true ∧
    model7ImportLabels.all (fun l => model7DefinedTypes.contains l) = true ∧
    bindData fitGlobalDefinedTypes fitGlobalImportLabels = true ∧
    "Binned_D0bar" ∈ fitGlobalImportLabels ∧
    "Binned_D0bar" ∉ fitGlobalDefinedTypes := by decide

/-- **C9.** The bifurcated Gaussian and the plain Gaussian of the model7
script reference two distinct parameter objects that both carry the name
`"mean"`: the second `RooRealVar("mean", ...)` rebinds the Python
variable, the bifurcated Gaussian keeps the first object, and the single
`mean` entry of the exported variable list is the second object, not the
bifurcated Gaussian's location parameter. -/
theorem C9_mean_shadowing :
    Model7.bifurgauss_mean.name = "mean" ∧
    Model7.gaussian_mean.name = "mean" ∧
    Model7.bifurgauss_mean.objId ≠ Model7.gaussian_mean.objId ∧
    Model7.exported_mean = Model7.gaussian_mean ∧
    Model7.exported_mean.objId ≠ Model7.bifurgauss_mean.objId ∧
    "mean" ∈ model7VariableNames := by decide

/-- **C6, counterexample.** The declared bounds of `a0` are `[-1, 0]` in
both scripts, so the value `0` is admitted by the declared bounds, and
`0` is not strictly less than zero: not every admitted value is strictly
negative. -/
theorem C6_a0_zero_admitted :
    Model7.a0_decl.admits 0 ∧ FitGlobal.a0_decl.admits 0 ∧
    ¬ ((0 : ℚ) < 0) := by decide

/-- **C6, amended.** Every value admitted by the declared bounds of the
exponential decay-rate parameter `a0` — in particular any fitted
estimate lying within those bounds — is nonpositive, and the declared
initial value `-0.009` is strictly negative; strict negativity holds
everywhere except at the boundary point `0` itself. -/
theorem C6_a0_nonpositive :
    (∀ q : ℚ, Model7.a0_decl.admits q → q ≤ 0) ∧
    (∀ q : ℚ, FitGlobal.a0_decl.admits q → q ≤ 0) ∧
    Model7.a0_decl.init < 0 ∧ FitGlobal.a0_decl.init < 0 := by
  refine ⟨fun q hq => ?_, fun q hq => ?_,
    by norm_num [Model7.a0_decl], by norm_num [FitGlobal.a0_decl]⟩
  · exact hq.2.trans (by norm_num [Model7.a0_decl])
  · exact hq.2.trans (by norm_num [FitGlobal.a0_decl])

/-- Witness for C6: the admitted value `-1/2` is nonpositive. -/
theorem C6_a0_nonpositive_witness :
    Model7.a0_decl.admits (-(1 / 2)) ∧ (-(1 / 2) : ℚ) ≤ 0 :=
  ⟨by norm_num [Model7.a0_decl, RooRealVarDecl.admits],
   C6_a0_nonpositive.1 (-(1 / 2))
     (by norm_num [Model7.a0_decl, RooRealVarDecl.admits])⟩

/-- **C7, counterexample.** The first mixing fraction of each model7
category is declared with bounds `[0.1, 1]`: the value `0` lies in
`[0, 1]` but is not admitted by `frac_D0_down`'s declared bounds, so the
full interval `[0, 1]` is not admitted and the declared bounds are not
`[0, 1]`. -/
theorem C7_fraction_not_full_interval :
    (0 : ℚ) ≤ 0 ∧ (0 : ℚ) ≤ 1 ∧ ¬ Model7.frac_D0_down_decl.admits 0 ∧
    Model7.frac_D0_down_decl.lo ≠ 0 := by
  norm_num [Model7.frac_D0_down_decl, RooRealVarDecl.admits]

/-- **C7, amended.** Each composite signal model has three shape
components and two independent mixing fractions (N−1 for N = 3) in both
scripts; every value admitted by any declared mixing fraction lies in
`[0, 1]`; the fractions of `fit_global.py` and the second fractions of
model7 admit the full interval `[0, 1]`, while the first fraction of
each model7 category is bounded to `[0.1, 1]`. -/
theorem C7_fraction_bounds :
    (∀ s ∈ model7SignalShapes, s.2.2 + 1 = s.2.1) ∧
    (∀ s ∈ fitGlobalSignalShapes, s.2.2 + 1 = s.2.1) ∧
    (∀ dcl ∈ Model7.fracDecls ++ FitGlobal.fracDecls,
      ∀ q : ℚ, dcl.admits q → 0 ≤ q ∧ q ≤ 1) ∧
    (∀ dcl ∈ FitGlobal.fracDecls, dcl.lo = 0 ∧ dcl.hi = 1) ∧
    (∀ dcl ∈ [Model7.frac_D0_down_2_decl, Model7.frac_D0_up_2_decl,
        Model7.frac_D0bar_down_2_decl, Model7.frac_D0bar_up_2_decl],
      dcl.lo = 0 ∧ dcl.hi = 1) ∧
    (∀ dcl ∈ [Model7.frac_D0_down_decl, Model7.frac_D0_up_decl,
        Model7.frac_D0bar_down_decl, Model7.frac_D0bar_up_decl],
      dcl.lo = 1 / 10 ∧ dcl.hi = 1) := by
  refine ⟨by decide, by decide, ?_, ?_, ?_, ?_⟩
  · intro dcl hdcl q hq
    have hb : 0 ≤ dcl.lo ∧ dcl.hi ≤ 1 := by
      fin_cases hdcl <;> constructor <;>
        norm_num [Model7.frac_D0_down_decl, Model7.frac_D0_down_2_decl,
          Model7.frac_D0_up_decl, Model7.frac_D0_up_2_decl,
          Model7.frac_D0bar_down_decl, Model7.frac_D0bar_down_2_decl,
          Model7.frac_D0bar_up_decl, Model7.frac_D0bar_up_2_decl,
          FitGlobal.frac_D0_decl, FitGlobal.frac_D0_2_decl,
          FitGlobal.frac_D0bar_decl, FitGlobal.frac_D0bar_2_decl]
    exact ⟨hb.1.trans hq.1, hq.2.trans hb.2⟩
  · intro dcl hdcl
    fin_cases hdcl <;> constructor <;>
      norm_num [FitGlobal.frac_D0_decl, FitGlobal.frac_D0_2_decl,
        FitGlobal.frac_D0bar_decl, FitGlobal.frac_D0bar_2_decl]
  · intro dcl hdcl
    fin_cases hdcl <;> constructor <;>
      norm_num [Model7.frac_D0_down_2_decl, Model7.frac_D0_up_2_decl,
        Model7.frac_D0bar_down_2_decl, Model7.frac_D0bar_up_2_decl]
  · intro dcl hdcl
    fin_cases hdcl <;> constructor <;>
      norm_num [Model7.frac_D0_down_decl, Model7.frac_D0_up_decl,
        Model7.frac_D0bar_down_decl, Model7.frac_D0bar_up_decl]

/-- The exported pairs at character level, as written to the file. -/
def exportCharPairs (val err : String → String) : List (List Char × List Char) :=
  (exportPairs val err).map fun p => (p.1.toList, p.2.toList)

/-- **C8.** For every fit result — any assignment of newline-free
formatted value and error strings to the parameters — rendering the
exporter's key/value pairs to the output text (one `key: value` line
each) and re-parsing that text by splitting it into lines and splitting
each line at `": "` recovers exactly the written name-to-value mapping,
every value string (hence every decimal) unchanged. -/
theorem C8_export_roundtrip (val err : String → String)
    (hval : ∀ n, '\n' ∉ (val n).toList) (herr : ∀ n, '\n' ∉ (err n).toList) :
    parseFile (renderFile (exportCharPairs val err)) = exportCharPairs val err := by
  apply parseFile_renderFile
  have hnames : ∀ n ∈ model7VariableNames, ':' ∉ n.toList ∧ '\n' ∉ n.toList := by decide
  have herrSuffix : ':' ∉ ("_error" : String).toList ∧
      '\n' ∉ ("_error" : String).toList := by decide
  intro p hp
  simp only [exportCharPairs, List.mem_map] at hp
  obtain ⟨q, hq, rfl⟩ := hp
  rw [exportPairs] at hq
  rcases List.mem_append.mp hq with h | h
  · obtain ⟨n, hn, rfl⟩ := List.mem_map.mp h
    exact ⟨(hnames n hn).1, (hnames n hn).2, hval n⟩
  · obtain ⟨n, hn, rfl⟩ := List.mem_map.mp h
    have hmem := List.mem_of_mem_filter hn
    have hsplit : (n ++ "_error").toList = n.toList ++ ("_error" : String).toList :=
      String.data_append n "_error"
    refine ⟨?_, ?_, herr n⟩
    · rw [hsplit]
      intro hc
      rcases List.mem_append.mp hc with hc | hc
      · exact (hnames n hmem).1 hc
      · exact herrSuffix.1 hc
    · rw [hsplit]
      intro hc
      rcases List.mem_append.mp hc with hc | hc
      · exact (hnames n hmem).2 hc
      · exact herrSuffix.2 hc

/-- Witness for C8: round-trip at a concrete fit result whose values
are all `"1.0"` and whose errors are all `"2.0"`. -/
theorem C8_export_roundtrip_witness :
    (∀ n : String, '\n' ∉ ("1.0" : String).toList) ∧
    parseFile (renderFile (exportCharPairs (fun _ => "1.0") (fun _ => "2.0"))) =
      exportCharPairs (fun _ => "1.0") (fun _ => "2.0") :=
  ⟨fun _ => by decide,
   C8_export_roundtrip (fun _ => "1.0") (fun _ => "2.0")
     (fun _ => (by decide : '\n' ∉ ("1.0" : String).toList))
     (fun _ => (by decide : '\n' ∉ ("2.0" : String).toList))⟩

/-- Witness for C7: the value `1/2`, admitted by `frac_D0_down`'s
declared bounds, lies in `[0, 1]`. -/
theorem C7_fraction_bounds_witness :
    Model7.frac_D0_down_decl.admits (1 / 2) ∧
    (0 : ℚ) ≤ 1 / 2 ∧ (1 / 2 : ℚ) ≤ 1 :=
  ⟨by norm_num [Model7.frac_D0_down_decl, RooRealVarDecl.admits],
   C7_fraction_bounds.2.2.1 Model7.frac_D0_down_decl
     (by simp [Model7.fracDecls, FitGlobal.fracDecls]) (1 / 2)
     (by norm_num [Model7.frac_D0_down_decl, RooRealVarDecl.admits])⟩

theorem generate_list_loop_eq (n : Nat) : ∀ current s, s = current + 10 * n →
    generate_list_loop current s = (List.range (n + 1)).map (fun i => current + 10 * i) := by
  induction n with
  | zero =>
    intro current s h
    rw [generate_list_loop, if_neg (by omega)]
    simp [List.range_succ]
  | succ n ih =>
    intro current s h
    have hlt : current < s := by omega
    have hstep : s = current + 10 + 10 * n := by omega
    rw [generate_list_loop, if_pos hlt, ih (current + 10) s hstep]
    conv_rhs => rw [List.range_succ_eq_map, List.map_cons, List.map_map]
    simp only [Function.comp_def]
    refine List.cons_eq_cons.mpr ⟨by omega, ?_⟩
    apply List.map_congr_left
    intro i _
    omega

theorem generate_list_eq (s : Nat) (h10 : 10 ≤ s) (hmod : s % 10 = 0) :
    generate_list s = (List.range (s / 10)).map (fun i => 10 * (i + 1)) := by
  rw [generate_list, generate_list_loop_eq (s / 10 - 1) 10 s (by omega)]
  have hsucc : s / 10 - 1 + 1 = s / 10 := by omega
  rw [hsucc]
  apply List.map_congr_left
  intro i _
  omega

/-- **C10.** For every accepted `--size` value `s` (a multiple of 10
with `10 ≤ s ≤ 800`), `generate_list s` is the list `[10, 20, ..., s]`
of length `s/10`; and in the `total` scheme the data-loading loop runs
once per element, re-adding the same four input file paths each time, so
each category's chain holds `s/10` identical copies of its file before
yields and histograms are computed. -/
theorem C10_total_scheme_duplicates (s : Nat)
    (h10 : 10 ≤ s) (h800 : s ≤ 800) (hmod : s % 10 = 0) (input year : String) :
    generate_list s = (List.range (s / 10)).map (fun i => 10 * (i + 1)) ∧
    (generate_list s).length = s / 10 ∧
    chainFilesTotal (d0UpPath input year s) s =
      List.replicate (s / 10) (d0UpPath input year s) ∧
    chainFilesTotal (d0DownPath input year s) s =
      List.replicate (s / 10) (d0DownPath input year s) ∧
    chainFilesTotal (d0barUpPath input year s) s =
      List.replicate (s / 10) (d0barUpPath input year s) ∧
    chainFilesTotal (d0barDownPath input year s) s =
      List.replicate (s / 10) (d0barDownPath input year s) := by
  have hgen := generate_list_eq s h10 hmod
  have hlen : (generate_list s).length = s / 10 := by rw [hgen]; simp
  have hchain : ∀ p : String, chainFilesTotal p s = List.replicate (s / 10) p := by
    intro p
    rw [chainFilesTotal, List.map_const', hlen]
  exact ⟨hgen, hlen, hchain _, hchain _, hchain _, hchain _⟩

/-- Witness for C10: at `--size 30`, `size_list` is `[10, 20, 30]` and
the D0 MagUp chain holds three copies of its file. -/
theorem C10_total_scheme_duplicates_witness :
    10 ≤ 30 ∧ 30 % 10 = 0 ∧ 30 ≤ 800 ∧
    generate_list 30 = [10, 20, 30] ∧
    chainFilesTotal (d0UpPath "." "16" 30) 30 =
      List.replicate 3 (d0UpPath "." "16" 30) :=
  ⟨by decide, by decide, by decide,
   ((C10_total_scheme_duplicates 30 (by decide) (by decide) (by decide) "." "16").1).trans
     (by decide),
   (C10_total_scheme_duplicates 30 (by decide) (by decide) (by decide) "." "16").2.2.1⟩

end Semester2
